import Mathlib

/-!
Verification of the flask-simple-web-app task list against its specification.

The embedding follows `src/routes.py` (the five route handlers) and
`src/app.py` (application wiring).  The files `models.py` and `database.py`
are not part of the sources; the `Task` entity and the store's id assignment
are therefore modelled from the specification (§3, §4.1), as noted on the
corresponding definitions.
-/

namespace FlaskTasks

/-- Modelled from the spec: `models.py` (the `Task` model) is not among the
sources.  Per spec §3 a task has an integer `id` (unique, system-assigned,
immutable), a `title`, a `description`, and a boolean `completed` that
defaults to `false` at creation. -/
structure Task where
  id : Nat
  title : String
  description : String
  completed : Bool
deriving Repr, DecidableEq

/-- The persistent application state: the task table, the id counter, and the
queue of flash messages.  The counter `nextId` is modelled from the spec
(§4.1 `create`: "assigns a new unique id"): ids are handed out by a counter
that only grows, starting from 1 (the store's first assigned id). -/
structure AppState where
  nextId : Nat
  tasks : List Task
  flashes : List String
deriving Repr, DecidableEq

/-- The state after `db.create_all()` on a fresh database: no tasks, no
pending flash messages, first id to be assigned is 1. -/
def initialState : AppState := { nextId := 1, tasks := [], flashes := [] }

/-- Submitted form data: an association list of field names to values, the
embedding of `request.form`. -/
abbrev FormData := List (String × String)

/-- `request.form.get(key)`-style lookup: the value of the first binding of
`key`, if any. -/
def formGet (form : FormData) (key : String) : Option String :=
  (form.find? (fun kv => kv.fst == key)).map (fun kv => kv.snd)

/-- `key in request.form`: presence of the field, the checkbox convention
used for `completed`. -/
def formHas (form : FormData) (key : String) : Bool :=
  (formGet form key).isSome

/-- The possible handler responses: a 302 redirect, a 200 rendered template
(carrying the tasks passed to it), a 404 from `get_or_404`, or the 400
produced by a missing `request.form[...]` key (werkzeug's
`BadRequestKeyError`). -/
inductive Response where
  | redirect (location : String)
  | render (template : String) (tasks : List Task)
  | notFound
  | badRequest
  | methodNotAllowed
deriving Repr, DecidableEq

/-- The HTTP status code of each response. -/
def Response.status : Response → Nat
  | .redirect _ => 302
  | .render _ _ => 200
  | .notFound => 404
  | .badRequest => 400
  | .methodNotAllowed => 405

/-- `Task.query.get(task_id)`: the record with the given primary key. -/
def getTask (st : AppState) (task_id : Nat) : Option Task :=
  st.tasks.find? (fun t => t.id == task_id)

/-- `GET /` (`index` in routes.py): render the full task list. -/
def index (st : AppState) : AppState × Response :=
  (st, .render "index.html" st.tasks)

/-- `GET /task/new` (`new_task`, non-POST branch): render the empty
creation form. -/
def new_task_get (st : AppState) : AppState × Response :=
  (st, .render "create_task.html" [])

/-- `POST /task/new` (`new_task`, POST branch in routes.py): read
`request.form['title']` and `request.form['description']` (a missing key
raises, giving a 400 before anything else happens); on an empty title,
flash "Title is required" and redirect back to the creation form; otherwise
insert `Task(title=title, description=description)` — which, per the
spec-modelled store, receives id `nextId` and `completed = false` — and
redirect to the list view. -/
def new_task_post (form : FormData) (st : AppState) : AppState × Response :=
  match formGet form "title" with
  | none => (st, .badRequest)
  | some title =>
    match formGet form "description" with
    | none => (st, .badRequest)
    | some description =>
      if title = "" then
        ({ st with flashes := st.flashes ++ ["Title is required"] },
          .redirect "/task/new")
      else
        ({ st with
            nextId := st.nextId + 1,
            tasks := st.tasks ++
              [{ id := st.nextId, title := title,
                 description := description, completed := false }] },
          .redirect "/")

/-- `GET /task/<id>/edit` (`edit_task`, non-POST branch): 404 if the id is
unknown, otherwise render the edit form pre-filled with the task. -/
def edit_task_get (task_id : Nat) (st : AppState) : AppState × Response :=
  match getTask st task_id with
  | none => (st, .notFound)
  | some t => (st, .render "edit_task.html" [t])

/-- `POST /task/<id>/edit` (`edit_task`, POST branch in routes.py):
`get_or_404`, then overwrite `title` and `description` from the form (a
missing key raises, giving a 400 with the table uncommitted), set
`completed` to the presence of the `completed` field, commit, and redirect
to the list view.  The commit is the SQL `UPDATE ... WHERE id = task_id`,
embedded as a map over the table touching only the row with that key. -/
def edit_task_post (task_id : Nat) (form : FormData) (st : AppState) :
    AppState × Response :=
  match getTask st task_id with
  | none => (st, .notFound)
  | some _ =>
    match formGet form "title" with
    | none => (st, .badRequest)
    | some title =>
      match formGet form "description" with
      | none => (st, .badRequest)
      | some description =>
        ({ st with
            tasks := st.tasks.map (fun t =>
              if t.id == task_id then
                { t with title := title, description := description,
                         completed := formHas form "completed" }
              else t) },
          .redirect "/")

/-- `POST /task/<id>/delete` (`delete_task` in routes.py): `get_or_404`,
then delete the record and redirect to the list view.  The commit is the
SQL `DELETE FROM task WHERE id = task_id`, embedded as a filter keeping
every row with a different key. -/
def delete_task (task_id : Nat) (st : AppState) : AppState × Response :=
  match getTask st task_id with
  | none => (st, .notFound)
  | some _ =>
    ({ st with tasks := st.tasks.filter (fun t => t.id != task_id) },
      .redirect "/")

/-- `POST /task/<id>/toogle` (`toogle_task` in routes.py — the route is
spelled `toogle` in the source): `get_or_404`, then flip `completed` on
that record, commit, and redirect to the list view. -/
def toogle_task (task_id : Nat) (st : AppState) : AppState × Response :=
  match getTask st task_id with
  | none => (st, .notFound)
  | some _ =>
    ({ st with
        tasks := st.tasks.map (fun t =>
          if t.id == task_id then { t with completed := !t.completed }
          else t) },
      .redirect "/")

/-- The registered routes of the blueprint `main`. -/
inductive Route where
  | index
  | newTask
  | editTask (task_id : Nat)
  | deleteTask (task_id : Nat)
  | toogleTask (task_id : Nat)
deriving Repr, DecidableEq

/-- The numeric value of a digit string, most significant first. -/
def digitsToNat (cs : List Char) : Nat :=
  cs.foldl (fun n c => n * 10 + (c.toNat - 48)) 0

/-- werkzeug's `<int:...>` URL converter: a path segment matches exactly
when it is a nonempty run of digits, and converts to its numeric value. -/
def intConverter (s : String) : Option Nat :=
  match s.toList with
  | [] => none
  | cs => if cs.all Char.isDigit then some (digitsToNat cs) else none

/-- URL matching over path segments, from the decorators in routes.py.
`<int:task_id>` is the integer converter above.  Note the last rule is
literally `/task/<int>/toogle`. -/
def pathRoute (segments : List String) : Option Route :=
  match segments with
  | [] => some .index
  | ["task", "new"] => some .newTask
  | ["task", s, "edit"] => (intConverter s).map Route.editTask
  | ["task", s, "delete"] => (intConverter s).map Route.deleteTask
  | ["task", s, "toogle"] => (intConverter s).map Route.toogleTask
  | _ => none

/-- The HTTP methods each route accepts, from the decorators. -/
def routeMethods : Route → List String
  | .index => ["GET"]
  | .newTask => ["GET", "POST"]
  | .editTask _ => ["GET", "POST"]
  | .deleteTask _ => ["POST"]
  | .toogleTask _ => ["POST"]

/-- Full request dispatch: match the path (404 when nothing matches, e.g.
`/task/1/toggle` with the standard spelling), check the method, and run the
matched handler. -/
def handle (method : String) (segments : List String) (form : FormData)
    (st : AppState) : AppState × Response :=
  match pathRoute segments with
  | none => (st, .notFound)
  | some r =>
    if method ∈ routeMethods r then
      match r with
      | .index => index st
      | .newTask =>
          if method == "POST" then new_task_post form st else new_task_get st
      | .editTask task_id =>
          if method == "POST" then edit_task_post task_id form st
          else edit_task_get task_id st
      | .deleteTask task_id => delete_task task_id st
      | .toogleTask task_id => toogle_task task_id st
    else (st, .methodNotAllowed)

/-- A client-visible mutating operation, for reasoning about operation
sequences (spec §8): a POST to one of the four mutating routes. -/
inductive Op where
  | create (form : FormData)
  | edit (task_id : Nat) (form : FormData)
  | toggle (task_id : Nat)
  | delete (task_id : Nat)

/-- A run of the application: the current state together with the log of
every id handed out to a successfully created task, in order. -/
structure RunState where
  st : AppState
  created : List Nat

/-- Apply one operation to a run.  A create is logged exactly when it
inserted a row (observable as the id counter advancing). -/
def applyOp (r : RunState) : Op → RunState
  | .create form =>
    let st' := (new_task_post form r.st).1
    if st'.nextId == r.st.nextId then { r with st := st' }
    else { st := st', created := r.created ++ [r.st.nextId] }
  | .edit task_id form => { r with st := (edit_task_post task_id form r.st).1 }
  | .toggle task_id => { r with st := (toogle_task task_id r.st).1 }
  | .delete task_id => { r with st := (delete_task task_id r.st).1 }

/-- Run a sequence of operations from the fresh application state. -/
def runOps (ops : List Op) : RunState :=
  ops.foldl applyOp { st := initialState, created := [] }

/-- The id-uniqueness invariant: the creation log has no duplicates and
every logged id is below the counter. -/
def GoodRun (r : RunState) : Prop :=
  r.created.Nodup ∧ ∀ i ∈ r.created, i < r.st.nextId

end FlaskTasks

namespace FlaskTasks

/-! ### Helper lemmas -/

/-- `find?` by id over a keyed update (`UPDATE ... WHERE id = task_id`):
when the update preserves the key, the lookup finds the updated record. -/
lemma find?_map_update (l : List Task) (task_id : Nat) (g : Task → Task)
    (hg : ∀ t, (g t).id = t.id) :
    (l.map (fun t => if t.id == task_id then g t else t)).find?
        (fun t => t.id == task_id)
      = (l.find? (fun t => t.id == task_id)).map g := by
  induction l with
  | nil => rfl
  | cons a l ih =>
    by_cases h : a.id = task_id
    · simp [List.find?_cons, h, hg]
    · have hb : (a.id == task_id) = false := by simp [h]
      simp only [List.map_cons, hb, Bool.false_eq_true, if_false, List.find?_cons]
      exact ih

/-- After a keyed delete (`DELETE ... WHERE id = task_id`) the lookup by
that id fails. -/
lemma find?_filter_ne (l : List Task) (task_id : Nat) :
    (l.filter (fun t => t.id != task_id)).find? (fun t => t.id == task_id) = none := by
  rw [List.find?_eq_none]
  intro x hx
  have h := (List.mem_filter.mp hx).2
  simp only [bne_iff_ne, ne_eq] at h
  simp [h]

/-- Flipping `completed` on the row with a given id twice restores the
table. -/
lemma toogle_map_twice (l : List Task) (task_id : Nat) :
    ((l.map (fun t => if t.id == task_id then { t with completed := !t.completed } else t)).map
        (fun t => if t.id == task_id then { t with completed := !t.completed } else t)) = l := by
  induction l with
  | nil => rfl
  | cons a l ih =>
    simp only [List.map_cons, List.cons.injEq]
    refine ⟨?_, ih⟩
    by_cases h : a.id = task_id
    · obtain ⟨i, ti, de, co⟩ := a
      simp only at h
      subst h
      simp
    · simp [h]

/-- Editing never touches the id counter. -/
lemma edit_task_post_nextId (task_id : Nat) (form : FormData) (st : AppState) :
    (edit_task_post task_id form st).1.nextId = st.nextId := by
  unfold edit_task_post
  split
  · rfl
  · split
    · rfl
    · split
      · rfl
      · rfl

/-- Deleting never touches the id counter. -/
lemma delete_task_nextId (task_id : Nat) (st : AppState) :
    (delete_task task_id st).1.nextId = st.nextId := by
  unfold delete_task
  split
  · rfl
  · rfl

/-- Toggling never touches the id counter. -/
lemma toogle_task_nextId (task_id : Nat) (st : AppState) :
    (toogle_task task_id st).1.nextId = st.nextId := by
  unfold toogle_task
  split
  · rfl
  · rfl

/-- A create leaves the id counter unchanged (validation or missing-field
failure) or advances it by exactly one (successful insert). -/
lemma new_task_post_nextId (form : FormData) (st : AppState) :
    (new_task_post form st).1.nextId = st.nextId ∨
    (new_task_post form st).1.nextId = st.nextId + 1 := by
  unfold new_task_post
  split
  · exact Or.inl rfl
  · split
    · exact Or.inl rfl
    · split
      · exact Or.inl rfl
      · exact Or.inr rfl

/-- Every operation preserves the id-uniqueness invariant. -/
lemma goodRun_applyOp (r : RunState) (op : Op) (h : GoodRun r) :
    GoodRun (applyOp r op) := by
  obtain ⟨hnd, hlt⟩ := h
  cases op with
  | create form =>
    show GoodRun (if _ then _ else _)
    by_cases hc : (new_task_post form r.st).1.nextId = r.st.nextId
    · rw [if_pos (by simp [hc])]
      exact ⟨hnd, fun i hi => hc ▸ hlt i hi⟩
    · rw [if_neg (by simp [hc])]
      have h2 : (new_task_post form r.st).1.nextId = r.st.nextId + 1 :=
        (new_task_post_nextId form r.st).resolve_left hc
      constructor
      · rw [List.nodup_append]
        refine ⟨hnd, List.nodup_singleton _, ?_⟩
        intro i hi hj
        rw [List.mem_singleton] at hj
        exact absurd (hj ▸ hlt i hi) (lt_irrefl _)
      · intro i hi
        rw [List.mem_append, List.mem_singleton] at hi
        rw [h2]
        rcases hi with hi | hi
        · exact Nat.lt_succ_of_lt (hlt i hi)
        · exact hi ▸ Nat.lt_succ_self _
  | edit task_id form =>
    exact ⟨hnd, fun i hi => (edit_task_post_nextId task_id form r.st).symm ▸ hlt i hi⟩
  | toggle task_id =>
    exact ⟨hnd, fun i hi => (toogle_task_nextId task_id r.st).symm ▸ hlt i hi⟩
  | delete task_id =>
    exact ⟨hnd, fun i hi => (delete_task_nextId task_id r.st).symm ▸ hlt i hi⟩

/-- The id-uniqueness invariant is inductive along any operation
sequence. -/
lemma goodRun_foldl (ops : List Op) (r : RunState) (h : GoodRun r) :
    GoodRun (ops.foldl applyOp r) := by
  induction ops generalizing r with
  | nil => exact h
  | cons op ops ih => exact ih _ (goodRun_applyOp r op h)

/-- A POST to `/task/new` dispatches to the create handler. -/
lemma handle_new_task_post (form : FormData) (st : AppState) :
    handle "POST" ["task", "new"] form st = new_task_post form st := by
  rfl

/-- On an unknown id, `get_or_404` short-circuits each of the four
id-taking handlers into a 404 that returns the state untouched. -/
lemma handlers_notFound (st : AppState) (task_id : Nat) (form : FormData)
    (h : getTask st task_id = none) :
    edit_task_get task_id st = (st, .notFound) ∧
    edit_task_post task_id form st = (st, .notFound) ∧
    delete_task task_id st = (st, .notFound) ∧
    toogle_task task_id st = (st, .notFound) := by
  unfold edit_task_get edit_task_post delete_task toogle_task
  rw [h]
  exact ⟨rfl, rfl, rfl, rfl⟩

/-- The successful toggle, written out: flip `completed` on the row with
the given id and redirect to the list view. -/
lemma toogle_task_eq (st : AppState) (task_id : Nat) (t : Task)
    (h : getTask st task_id = some t) :
    toogle_task task_id st
      = ({ st with tasks := st.tasks.map (fun u =>
            if u.id == task_id then { u with completed := !u.completed } else u) },
         Response.redirect "/") := by
  unfold toogle_task
  rw [h]

/-- After a successful toggle, the looked-up record is the old record with
`completed` flipped. -/
lemma getTask_toogle (st : AppState) (task_id : Nat) (t : Task)
    (h : getTask st task_id = some t) :
    getTask (toogle_task task_id st).1 task_id
      = some { t with completed := !t.completed } := by
  rw [toogle_task_eq st task_id t h]
  unfold getTask at h ⊢
  dsimp only
  rw [find?_map_update st.tasks task_id
        (fun u => { u with completed := !u.completed }) (fun u => rfl), h]
  rfl

/-- A POST to `/task/<digits>/toogle` dispatches to the toggle handler at
the converted id. -/
lemma handle_toogle (s : String) (task_id : Nat) (form : FormData) (st : AppState)
    (hs : intConverter s = some task_id) :
    handle "POST" ["task", s, "toogle"] form st = toogle_task task_id st := by
  have hp : pathRoute ["task", s, "toogle"] = some (Route.toogleTask task_id) := by
    simp [pathRoute, hs]
  unfold handle
  rw [hp]
  rfl

/-- The successful edit, written out: overwrite title, description and
`completed` on the row with the given id and redirect to the list view. -/
lemma edit_task_post_eq (task_id : Nat) (form : FormData) (st : AppState) (t : Task)
    (ti de : String)
    (hget : getTask st task_id = some t)
    (ht : formGet form "title" = some ti)
    (hd : formGet form "description" = some de) :
    edit_task_post task_id form st
      = ({ st with tasks := st.tasks.map (fun u =>
            if u.id == task_id then
              { u with title := ti, description := de,
                       completed := formHas form "completed" }
            else u) },
         Response.redirect "/") := by
  unfold edit_task_post
  rw [hget, ht, hd]

end FlaskTasks

namespace FlaskTasks

/-! ### Claim theorems -/

/-- Claim C1: for a store containing no tasks, creating a task via
POST /task/new with title "Buy milk" and description "2%" and then listing
tasks yields exactly one task whose title is "Buy milk", whose description
is "2%", and whose completed field is false. -/
theorem C1_create_then_list :
    (index ((handle "POST" ["task", "new"]
        [("title", "Buy milk"), ("description", "2%")] initialState).1)).2
      = Response.render "index.html"
          [{ id := 1, title := "Buy milk", description := "2%", completed := false }] := by
  rfl

/-- Claim C2, counterexample: a POST to /task/new with an empty title
answers with a 302 redirect to the creation form, not with a 200 response
that re-displays the form — refuting the claimed "HTTP status 200 (not a
redirect)". -/
theorem C2_counterexample :
    (handle "POST" ["task", "new"] [("title", ""), ("description", "2%")]
        initialState).2 = Response.redirect "/task/new" ∧
    Response.status (handle "POST" ["task", "new"] [("title", ""), ("description", "2%")]
        initialState).2 ≠ 200 := by
  exact ⟨rfl, by decide⟩

/-- Claim C2 as amended: for every POST to /task/new whose submitted title
field is the empty string (description field submitted), no task record is
created and the id counter does not move, the flash message "Title is
required" is surfaced, and the handler answers with a 302 redirect back to
the creation form (the form is shown again only after following the
redirect). -/
theorem C2_empty_title_redirects (st : AppState) (form : FormData) (d : String)
    (ht : formGet form "title" = some "")
    (hd : formGet form "description" = some d) :
    (handle "POST" ["task", "new"] form st).1.tasks = st.tasks ∧
    (handle "POST" ["task", "new"] form st).1.nextId = st.nextId ∧
    (handle "POST" ["task", "new"] form st).1.flashes
      = st.flashes ++ ["Title is required"] ∧
    (handle "POST" ["task", "new"] form st).2 = Response.redirect "/task/new" ∧
    Response.status (handle "POST" ["task", "new"] form st).2 = 302 := by
  rw [handle_new_task_post]
  unfold new_task_post
  rw [ht, hd]
  exact ⟨rfl, rfl, rfl, rfl, rfl⟩

/-- Witness for C2: the amended theorem applied to a concrete empty-title
form on the fresh state. -/
theorem C2_empty_title_redirects_witness :
    formGet [("title", ""), ("description", "2%")] "title" = some "" ∧
    formGet [("title", ""), ("description", "2%")] "description" = some "2%" ∧
    (handle "POST" ["task", "new"] [("title", ""), ("description", "2%")]
        initialState).1.flashes = ["Title is required"] :=
  ⟨rfl, rfl,
    (C2_empty_title_redirects initialState [("title", ""), ("description", "2%")]
      "2%" rfl rfl).2.2.1⟩

/-- Claim C3: for every existing task id, POST /task/{id}/edit overwrites
the task's title and description with the submitted form values, sets
completed to true exactly when the `completed` form field is present, and
redirects to the list view; there is no empty-title guard on edit (`ti` may
be the empty string). -/
theorem C3_edit_overwrites (st : AppState) (task_id : Nat) (form : FormData)
    (t : Task) (ti de : String)
    (hget : getTask st task_id = some t)
    (ht : formGet form "title" = some ti)
    (hd : formGet form "description" = some de) :
    (edit_task_post task_id form st).2 = Response.redirect "/" ∧
    getTask (edit_task_post task_id form st).1 task_id
      = some { id := t.id, title := ti, description := de,
               completed := formHas form "completed" } := by
  rw [edit_task_post_eq task_id form st t ti de hget ht hd]
  refine ⟨rfl, ?_⟩
  unfold getTask at hget ⊢
  dsimp only
  rw [find?_map_update st.tasks task_id
        (fun u => { u with title := ti, description := de,
                           completed := formHas form "completed" })
        (fun u => rfl), hget]
  rfl

/-- Witness for C3: editing a completed task to an empty title with the
`completed` field omitted overwrites the fields and resets completed. -/
theorem C3_edit_overwrites_witness :
    getTask { nextId := 2,
              tasks := [{ id := 1, title := "old", description := "od", completed := true }],
              flashes := [] } 1
      = some { id := 1, title := "old", description := "od", completed := true } ∧
    formGet [("title", ""), ("description", "nd")] "title" = some "" ∧
    formGet [("title", ""), ("description", "nd")] "description" = some "nd" ∧
    getTask (edit_task_post 1 [("title", ""), ("description", "nd")]
        { nextId := 2,
          tasks := [{ id := 1, title := "old", description := "od", completed := true }],
          flashes := [] }).1 1
      = some { id := 1, title := "", description := "nd", completed := false } :=
  ⟨rfl, rfl, rfl,
    (C3_edit_overwrites
      { nextId := 2,
        tasks := [{ id := 1, title := "old", description := "od", completed := true }],
        flashes := [] }
      1 [("title", ""), ("description", "nd")]
      { id := 1, title := "old", description := "od", completed := true }
      "" "nd" rfl rfl rfl).2⟩

/-- Claim C4, counterexample: with task 1 present, a POST to the path
/task/1/toggle (the spelling the claim states) matches no route: the
response is a 404 and the state is untouched, so the claimed flip-and-
redirect does not happen at that path. -/
theorem C4_counterexample :
    handle "POST" ["task", "1", "toggle"] []
        { nextId := 2,
          tasks := [{ id := 1, title := "a", description := "b", completed := false }],
          flashes := [] }
      = ({ nextId := 2,
           tasks := [{ id := 1, title := "a", description := "b", completed := false }],
           flashes := [] },
         Response.notFound) := by
  rfl

/-- Claim C4 as amended: the toggle route is spelled /task/{id}/toogle in
the source.  For every existing task id a POST to that path flips the
task's completed flag and redirects to /, and it yields a 404 (leaving the
state unchanged) when the id is unknown. -/
theorem C4_toogle_route (st : AppState) (s : String) (task_id : Nat) (form : FormData)
    (hs : intConverter s = some task_id) :
    (∀ t, getTask st task_id = some t →
        (handle "POST" ["task", s, "toogle"] form st).2 = Response.redirect "/" ∧
        getTask (handle "POST" ["task", s, "toogle"] form st).1 task_id
          = some { t with completed := !t.completed }) ∧
    (getTask st task_id = none →
        handle "POST" ["task", s, "toogle"] form st = (st, Response.notFound)) := by
  rw [handle_toogle s task_id form st hs]
  constructor
  · intro t ht
    exact ⟨by rw [toogle_task_eq st task_id t ht], getTask_toogle st task_id t ht⟩
  · intro hn
    exact (handlers_notFound st task_id form hn).2.2.2

/-- Witness for C4: POSTing /task/1/toogle with task 1 present flips its
completed flag. -/
theorem C4_toogle_route_witness :
    (intConverter "1" = some 1) ∧
    getTask (handle "POST" ["task", "1", "toogle"] []
        { nextId := 2,
          tasks := [{ id := 1, title := "a", description := "b", completed := false }],
          flashes := [] }).1 1
      = some { id := 1, title := "a", description := "b", completed := true } :=
  ⟨by decide,
    ((C4_toogle_route
        { nextId := 2,
          tasks := [{ id := 1, title := "a", description := "b", completed := false }],
          flashes := [] }
        "1" 1 [] (by decide)).1
      { id := 1, title := "a", description := "b", completed := false } rfl).2⟩

end FlaskTasks

namespace FlaskTasks

/-- Claim C5: for every existing task, toggling twice in succession returns
the store — in particular that task's completed field — to its original
value: toggle is an involution. -/
theorem C5_toggle_involution (st : AppState) (task_id : Nat) (t : Task)
    (h : getTask st task_id = some t) :
    (toogle_task task_id (toogle_task task_id st).1).1 = st := by
  rw [toogle_task_eq _ task_id _ (getTask_toogle st task_id t h),
      toogle_task_eq st task_id t h]
  dsimp only
  rw [toogle_map_twice]

/-- Witness for C5: double toggle on a concrete one-task store. -/
theorem C5_toggle_involution_witness :
    getTask { nextId := 2,
              tasks := [{ id := 1, title := "a", description := "b", completed := true }],
              flashes := [] } 1
      = some { id := 1, title := "a", description := "b", completed := true } ∧
    (toogle_task 1 (toogle_task 1
        { nextId := 2,
          tasks := [{ id := 1, title := "a", description := "b", completed := true }],
          flashes := [] }).1).1
      = { nextId := 2,
          tasks := [{ id := 1, title := "a", description := "b", completed := true }],
          flashes := [] } :=
  ⟨rfl, C5_toggle_involution _ 1 _ rfl⟩

/-- Claim C6: toggle changes only the completed field.  The id counter and
flash queue are untouched, and the new table is row-for-row related to the
old one: ids, titles and descriptions are all preserved, and every row
whose id differs from the toggled one is entirely unchanged. -/
theorem C6_toggle_frame (st : AppState) (task_id : Nat) (t : Task)
    (h : getTask st task_id = some t) :
    (toogle_task task_id st).1.nextId = st.nextId ∧
    (toogle_task task_id st).1.flashes = st.flashes ∧
    List.Forall₂ (fun u u' => u'.id = u.id ∧ u'.title = u.title ∧
        u'.description = u.description ∧ (u.id ≠ task_id → u' = u))
      st.tasks (toogle_task task_id st).1.tasks := by
  rw [toogle_task_eq st task_id t h]
  refine ⟨rfl, rfl, ?_⟩
  dsimp only
  rw [List.forall₂_map_right_iff, List.forall₂_same]
  intro u hu
  by_cases hid : u.id = task_id
  · simp [hid]
  · simp [hid]

/-- Witness for C6: toggling one of two tasks leaves the flash queue (and,
by the theorem, the other task) unchanged. -/
theorem C6_toggle_frame_witness :
    getTask { nextId := 3,
              tasks := [{ id := 1, title := "a", description := "b", completed := false },
                        { id := 2, title := "c", description := "d", completed := true }],
              flashes := [] } 1
      = some { id := 1, title := "a", description := "b", completed := false } ∧
    (toogle_task 1
        { nextId := 3,
          tasks := [{ id := 1, title := "a", description := "b", completed := false },
                    { id := 2, title := "c", description := "d", completed := true }],
          flashes := [] }).1.flashes = [] :=
  ⟨rfl, (C6_toggle_frame
      { nextId := 3,
        tasks := [{ id := 1, title := "a", description := "b", completed := false },
                  { id := 2, title := "c", description := "d", completed := true }],
        flashes := [] }
      1 { id := 1, title := "a", description := "b", completed := false } rfl).2.1⟩

/-- Claim C7: for every id not present in the store, each of the edit (GET
and POST), delete, and toggle operations yields NotFound — surfaced as
HTTP 404 — and returns the state completely unchanged. -/
theorem C7_missing_id_is_404 (st : AppState) (task_id : Nat) (form : FormData)
    (h : getTask st task_id = none) :
    edit_task_get task_id st = (st, Response.notFound) ∧
    edit_task_post task_id form st = (st, Response.notFound) ∧
    delete_task task_id st = (st, Response.notFound) ∧
    toogle_task task_id st = (st, Response.notFound) ∧
    Response.status Response.notFound = 404 :=
  ⟨(handlers_notFound st task_id form h).1,
   (handlers_notFound st task_id form h).2.1,
   (handlers_notFound st task_id form h).2.2.1,
   (handlers_notFound st task_id form h).2.2.2, rfl⟩

/-- Witness for C7: deleting the absent id 7 on the fresh store 404s and
leaves it untouched. -/
theorem C7_missing_id_is_404_witness :
    getTask initialState 7 = none ∧
    delete_task 7 initialState = (initialState, Response.notFound) :=
  ⟨rfl, (C7_missing_id_is_404 initialState 7 [] rfl).2.2.1⟩

/-- Claim C8: after a successful delete of an id, a get on that id fails,
and every subsequent edit (GET or POST), delete, or toggle on that id
yields NotFound against the post-delete state. -/
theorem C8_delete_then_notfound (st : AppState) (task_id : Nat) (form : FormData)
    (t : Task) (h : getTask st task_id = some t) :
    (delete_task task_id st).2 = Response.redirect "/" ∧
    getTask (delete_task task_id st).1 task_id = none ∧
    edit_task_get task_id (delete_task task_id st).1
      = ((delete_task task_id st).1, Response.notFound) ∧
    edit_task_post task_id form (delete_task task_id st).1
      = ((delete_task task_id st).1, Response.notFound) ∧
    delete_task task_id (delete_task task_id st).1
      = ((delete_task task_id st).1, Response.notFound) ∧
    toogle_task task_id (delete_task task_id st).1
      = ((delete_task task_id st).1, Response.notFound) := by
  have e1 : delete_task task_id st
      = ({ st with tasks := st.tasks.filter (fun t => t.id != task_id) },
         Response.redirect "/") := by
    unfold delete_task
    rw [h]
  have hn : getTask (delete_task task_id st).1 task_id = none := by
    rw [e1]
    exact find?_filter_ne st.tasks task_id
  have hh := handlers_notFound (delete_task task_id st).1 task_id form hn
  exact ⟨by rw [e1], hn, hh.1, hh.2.1, hh.2.2.1, hh.2.2.2⟩

/-- Witness for C8: after deleting task 1, toggling id 1 404s. -/
theorem C8_delete_then_notfound_witness :
    getTask { nextId := 2,
              tasks := [{ id := 1, title := "a", description := "b", completed := false }],
              flashes := [] } 1
      = some { id := 1, title := "a", description := "b", completed := false } ∧
    getTask (delete_task 1
        { nextId := 2,
          tasks := [{ id := 1, title := "a", description := "b", completed := false }],
          flashes := [] }).1 1 = none :=
  ⟨rfl, (C8_delete_then_notfound
      { nextId := 2,
        tasks := [{ id := 1, title := "a", description := "b", completed := false }],
        flashes := [] }
      1 [] { id := 1, title := "a", description := "b", completed := false } rfl).2.1⟩

/-- Claim C9: along every finite sequence of create, edit, toggle and
delete operations starting from the fresh store, the log of ids assigned
to created tasks has no duplicates — ids are pairwise distinct and in
particular an id is never handed out again after the task holding it is
deleted. -/
theorem C9_ids_never_reused (ops : List Op) : (runOps ops).created.Nodup :=
  (goodRun_foldl ops { st := initialState, created := [] }
    ⟨List.nodup_nil, by simp⟩).1

/-- Claim C10: a POST to /task/new whose form lacks the title key or the
description key fails with the unhandled missing-key error (HTTP 400): the
state — tasks, counter and flash queue alike — is returned unchanged and
the response is neither a rendered form nor a redirect; the check happens
before the empty-title validation runs. -/
theorem C10_missing_form_key (st : AppState) (form : FormData)
    (h : formGet form "title" = none ∨ formGet form "description" = none) :
    handle "POST" ["task", "new"] form st = (st, Response.badRequest) := by
  rw [handle_new_task_post]
  unfold new_task_post
  rcases h with h | h
  · rw [h]
  · rcases ht : formGet form "title" with _ | title
    · rfl
    · rw [h]

/-- Witness for C10: a form carrying an empty title but no description key
yields the 400 — and, the state being returned unchanged, no flash was
recorded even though the title was empty. -/
theorem C10_missing_form_key_witness :
    formGet [("title", "")] "description" = none ∧
    handle "POST" ["task", "new"] [("title", "")] initialState
      = (initialState, Response.badRequest) :=
  ⟨rfl, C10_missing_form_key initialState [("title", "")] (Or.inr rfl)⟩

end FlaskTasks
